import Mathlib

/-!
Shallow embedding of the Kino structured-logging facade
(`src/Kino.ts`, `src/constants.ts`, `src/KinoLoggedClass.ts`).

Modelling conventions:
* JavaScript runtime values passed to logging methods are `JSValue`;
  `typeof v === "string"` corresponds to the `JSValue.str` constructor.
* The mutable statics of class `Kino` (`Kino.instance`, `Kino.locale`)
  together with the observable state of the Sentry SDK (whether
  `Sentry.init` ran and with which options) and the process-level handler
  registrations form one explicit `GlobalState`, threaded through each
  operation.
* Throwing is modelled by `Except KinoError`; the side effects of a call
  (console lines written, `Sentry.captureException` invocations) are the
  returned `LogEffects`.
* `Date#toLocaleString` is an external, impure facility: the formatted
  timestamp is taken as an explicit `dateStr` argument.
* `chalk` colour functions and `util.inspect` are external libraries,
  modelled by executable functions (`chalk`, `utilInspect`) that keep the
  structure relevant to the spec: colouring wraps the text in ANSI codes,
  inspection is a depth-bounded structural rendering.
* JavaScript object-spread tag records are association lists where a later
  entry overrides an earlier one; `recGet` is the corresponding lookup.
-/

/-- Model of a JavaScript runtime value handed to a logging method. -/
inductive JSValue where
  | str (s : String)
  | num (n : Int)
  | bool (b : Bool)
  | null
  | obj (fields : List (String × JSValue))

/-- Model of `util.inspect(v, { depth := d })`: depth-bounded structural
rendering; below the depth bound an object collapses to `"[Object]"`. -/
def utilInspect (depth : Nat) (v : JSValue) : String :=
  match depth, v with
  | _, .str s => "\x22" ++ s ++ "\x22"
  | _, .num n => toString n
  | _, .bool b => if b then "true" else "false"
  | _, .null => "null"
  | 0, .obj _ => "[Object]"
  | d + 1, .obj fields =>
      "\x7b " ++ String.intercalate ", "
        (fields.map (fun p => p.1 ++ ": " ++ utilInspect d p.2)) ++ " \x7d"
termination_by depth

/-- The six log levels of `constants.ts`. -/
inductive LogLevel where
  | log | info | success | warn | error | debug
deriving DecidableEq

/-- `LEVELS` of `src/constants.ts`: the fixed uppercase tag of each level. -/
def LEVELS : LogLevel → String
  | .log => "LOG"
  | .info => "INFO"
  | .success => "SUCCESS"
  | .warn => "WARN"
  | .error => "ERROR"
  | .debug => "DEBUG"

/-- Model of a `chalk` colour function: wrap the text in the ANSI colour
escape with the given code. -/
def chalk (code : Nat) (s : String) : String :=
  "\x1b[" ++ toString code ++ "m" ++ s ++ "\x1b[39m"

/-- `COLORS` of `src/constants.ts`: the fixed level-to-colour mapping
(`cyan`, `white`, `green`, `yellow`, `red`, `blueBright`). -/
def COLORS : LogLevel → String → String
  | .log => chalk 36
  | .info => chalk 37
  | .success => chalk 32
  | .warn => chalk 33
  | .error => chalk 31
  | .debug => chalk 94

/-- The five `console` writer functions the `output` method selects among. -/
inductive ConsoleWriter where
  | error | warn | info | debug | log
deriving DecidableEq

/-- One console line as written by `output`: the selected writer, the
colourised bracketed header, and the rendered entry. -/
structure LogLine where
  writer : ConsoleWriter
  pre : String
  text : String

/-- Rendering of one entry inside `output`:
`typeof entry === "string" ? entry : util.inspect(entry, {depth: 3, colors: true})`. -/
def renderEntry (entry : JSValue) : String :=
  match entry with
  | .str s => s
  | _ => utilInspect 3 entry

/-- `Kino#output`: builds the colourised header
`[<date> - <module> - <LEVEL>]`, selects the console writer from the level,
and writes one line per entry. -/
def Kino.output (module dateStr : String) (type : LogLevel)
    (entries : List JSValue) : List LogLine :=
  let color := COLORS type
  let level := LEVELS type
  let pre := color ("[" ++ dateStr ++ " - " ++ module ++ " - " ++ level ++ "]")
  let writer :=
    if type = .error then ConsoleWriter.error
    else if type = .warn then ConsoleWriter.warn
    else if type = .info then ConsoleWriter.info
    else if type = .debug then ConsoleWriter.debug
    else ConsoleWriter.log
  entries.map (fun entry => { writer := writer, pre := pre, text := renderEntry entry })

/-- The named Sentry integrations `Kino.init` may put into its list. -/
inductive Integration where
  | functionToString
  | linkedErrors
  | console (levels : List String)
  | nativeNodeFetch
  | http
  | contextLines
  | childProcess
  | modules
  | onUncaughtException
  | onUnhandledRejection
  | anr (captureStackTrace : Bool)
  | knex
  | mysql2
deriving DecidableEq

/-- The fields of `Sentry.NodeOptions` that `Kino.init` reads or that its
object-spread `...config.sentry` can override. `none` models an absent key. -/
structure SentryNodeOptions where
  tracesSampleRate : Option ℚ := none
  maxBreadcrumbs : Option Nat := none
  defaultIntegrations : Option Bool := none
  sendClientReports : Option Bool := none
  integrations : Option (List Integration) := none
deriving DecidableEq

/-- The options record that `Kino.init` passes to `Sentry.init`.
`defaultIntegrations` is `Option Bool` because the key is inserted by a
conditional spread; the other keys are always present. -/
structure SentryInitArgs where
  tracesSampleRate : ℚ
  defaultIntegrations : Option Bool
  integrations : List Integration
  maxBreadcrumbs : Nat
  sendClientReports : Bool
deriving DecidableEq

/-- The object literal built inside `Sentry.init({...})` before the final
`...config.sentry` spread: explicit keys first, with the conditional
`...(!config.sentry.defaultIntegrations ? { defaultIntegrations: false } : {})`. -/
def preSpreadSentryArgs (cs : SentryNodeOptions) (integrations : List Integration) :
    SentryInitArgs :=
  { tracesSampleRate := cs.tracesSampleRate.getD (1 / 10)
    defaultIntegrations :=
      if !(cs.defaultIntegrations.getD false) then some false else none
    integrations := integrations
    maxBreadcrumbs := cs.maxBreadcrumbs.getD 5
    sendClientReports := false }

/-- The final `...config.sentry` spread: every key present in the caller's
configuration overrides the value already in the literal. -/
def spreadSentryOptions (base : SentryInitArgs) (cs : SentryNodeOptions) :
    SentryInitArgs :=
  { tracesSampleRate := cs.tracesSampleRate.getD base.tracesSampleRate
    defaultIntegrations :=
      match cs.defaultIntegrations with
      | some b => some b
      | none => base.defaultIntegrations
    integrations := cs.integrations.getD base.integrations
    maxBreadcrumbs := cs.maxBreadcrumbs.getD base.maxBreadcrumbs
    sendClientReports := cs.sendClientReports.getD base.sendClientReports }

/-- The full options record handed to `Sentry.init`. -/
def mkSentryInitArgs (cs : SentryNodeOptions) (integrations : List Integration) :
    SentryInitArgs :=
  spreadSentryOptions (preSpreadSentryArgs cs integrations) cs

/-- `KinoInitOptions` of `src/Kino.ts`. Absent keys are `none`; the two
boolean flags default to `false` because `undefined` is falsy in the
conditions that read them. -/
structure KinoInitOptions where
  sentry : Option SentryNodeOptions := none
  packages : Option (List String) := none
  ANR : Bool := false
  defaultIntanceTitle : Option String := none
  locale : Option String := none
  autoCaptureUnhandledRejections : Bool := false
deriving DecidableEq

/-- Conditional assembly of the integration list inside `Kino.init`, in the
source's push order: fixed baseline, then the two SDK process-event
integrations unless auto-capture was requested, then ANR, then the
database-driver integrations named in `packages`. -/
def assembleIntegrations (config : KinoInitOptions) : List Integration :=
  let integrations : List Integration :=
    [.functionToString, .linkedErrors,
     .console ["error", "warn", "debug", "trace"],
     .nativeNodeFetch, .http, .contextLines, .childProcess, .modules]
  let integrations :=
    if !config.autoCaptureUnhandledRejections then
      integrations ++ [.onUncaughtException, .onUnhandledRejection]
    else integrations
  let integrations :=
    if config.ANR then integrations ++ [.anr true] else integrations
  let integrations :=
    if (config.packages.getD []).contains "knex" then integrations ++ [.knex]
    else integrations
  let integrations :=
    if (config.packages.getD []).contains "mysql2" then integrations ++ [.mysql2]
    else integrations
  integrations

/-- The process-wide state: `Kino.instance` (the default instance, carrying
only its module label), `Kino.locale`, the Sentry SDK state (`some args` once
`Sentry.init args` has run, which is what makes `Sentry.getClient()` truthy),
and whether `process.on` handlers were registered. -/
structure GlobalState where
  kinoInstance : Option String := none
  locale : String := "en-US"
  sentryClient : Option SentryInitArgs := none
  handlersRegistered : Bool := false
deriving DecidableEq

/-- The state of a fresh process: `Kino.instance` unset, locale `en-US`. -/
def initialGlobalState : GlobalState := {}

/-- The errors an operation can throw. `typeErrorUndefined` models the
JavaScript `TypeError` raised by reading a property of `undefined`. -/
inductive KinoError where
  | notInitialized
  | alreadyInitialized
  | typeErrorUndefined
deriving DecidableEq

/-- The message carried by each thrown error. -/
def KinoError.message : KinoError → String
  | .notInitialized => "Logger not initialized"
  | .alreadyInitialized => "Logger already initialized"
  | .typeErrorUndefined => "TypeError: cannot read properties of undefined"

/-- `Kino.init`: fails if already initialized; sets the locale when a truthy
one is supplied; creates the default instance; when a `sentry` configuration
is supplied, assembles the integrations and calls `Sentry.init` with the
spread-merged options; when auto-capture is requested, registers the
process-level handlers. -/
def Kino.init (st : GlobalState) (config : KinoInitOptions) :
    Except KinoError GlobalState :=
  if st.kinoInstance.isSome then
    .error .alreadyInitialized
  else
    let locale :=
      match config.locale with
      | some l => if l == "" then st.locale else l
      | none => st.locale
    let inst := some (config.defaultIntanceTitle.getD "GLOBAL")
    let sentryClient :=
      match config.sentry with
      | some cs => some (mkSentryInitArgs cs (assembleIntegrations config))
      | none => st.sentryClient
    let handlers :=
      if config.autoCaptureUnhandledRejections then true else st.handlersRegistered
    .ok { kinoInstance := inst, locale := locale,
          sentryClient := sentryClient, handlersRegistered := handlers }

/-- `SentryCaptureContext` of `src/Kino.ts`: optional tags, extras and user. -/
structure SentryCaptureContext where
  tags : Option (List (String × String)) := none
  extras : Option (List (String × JSValue)) := none
  user : Option (String × String) := none

/-- One `Sentry.captureException(value, hint)` invocation: the original value
and the tag/extras/user context it was given. -/
structure SentryCapture where
  value : JSValue
  tags : List (String × String)
  extras : Option (List (String × JSValue))
  user : Option (String × String)

/-- The observable effects of one logging call: the console lines written and
the `captureException` invocations made. -/
structure LogEffects where
  lines : List LogLine
  captures : List SentryCapture

/-- JavaScript lookup on a spread-built tag record: the last entry with the
key wins, `none` models an absent key. -/
def recGet : List (String × String) → String → Option String
  | [], _ => none
  | (k', v) :: rest, k =>
      match recGet rest k with
      | some v' => some v'
      | none => if k' = k then some v else none

/-- The spread `{...context?.tags}`: the caller's tag entries, or nothing when
the context or its `tags` key is absent. -/
def optTags (context : Option SentryCaptureContext) : List (String × String) :=
  (context.bind (fun c => c.tags)).getD []

/-- Instance method `Kino#log`: init guard, then `output` with level `log`. -/
def Kino.log (st : GlobalState) (module dateStr : String)
    (entries : List JSValue) : Except KinoError LogEffects :=
  if st.kinoInstance.isNone then .error .notInitialized
  else .ok { lines := Kino.output module dateStr .log entries, captures := [] }

/-- Instance method `Kino#info`: init guard, then `output` with level `info`. -/
def Kino.info (st : GlobalState) (module dateStr : String)
    (entries : List JSValue) : Except KinoError LogEffects :=
  if st.kinoInstance.isNone then .error .notInitialized
  else .ok { lines := Kino.output module dateStr .info entries, captures := [] }

/-- Instance method `Kino#debug`: init guard, then `output` with level `debug`. -/
def Kino.debug (st : GlobalState) (module dateStr : String)
    (entries : List JSValue) : Except KinoError LogEffects :=
  if st.kinoInstance.isNone then .error .notInitialized
  else .ok { lines := Kino.output module dateStr .debug entries, captures := [] }

/-- Instance method `Kino#success`: init guard, then `output` with level `success`. -/
def Kino.success (st : GlobalState) (module dateStr : String)
    (entries : List JSValue) : Except KinoError LogEffects :=
  if st.kinoInstance.isNone then .error .notInitialized
  else .ok { lines := Kino.output module dateStr .success entries, captures := [] }

/-- Instance method `Kino#warn`: init guard, then `output` with level `warn`. -/
def Kino.warn (st : GlobalState) (module dateStr : String)
    (entries : List JSValue) : Except KinoError LogEffects :=
  if st.kinoInstance.isNone then .error .notInitialized
  else .ok { lines := Kino.output module dateStr .warn entries, captures := [] }

/-- Instance method `Kino#error`: init guard, one `output` line for the value,
then — only when `Sentry.getClient()` is truthy — one `captureException` with
`{...context, tags: {...context?.tags, module: this.module}}`. -/
def Kino.error (st : GlobalState) (module dateStr : String) (error : JSValue)
    (context : Option SentryCaptureContext) : Except KinoError LogEffects :=
  if st.kinoInstance.isNone then .error .notInitialized
  else
    let lines := Kino.output module dateStr .error [error]
    let captures :=
      if st.sentryClient.isSome then
        [{ value := error
           tags := optTags context ++ [("module", module)]
           extras := context.bind (fun c => c.extras)
           user := context.bind (fun c => c.user) }]
      else []
    .ok { lines := lines, captures := captures }

/-- Instance method `Kino#trace`: init guard, then a closure that, when
invoked, calls `this.error` with
`{...context, tags: {...context?.tags, trace_uid: uid}}`. The closure reads
the then-current global state when it runs. -/
def Kino.trace (st : GlobalState) (module : String) (uid : String)
    (context : Option SentryCaptureContext) :
    Except KinoError (GlobalState → String → JSValue → Except KinoError LogEffects) :=
  if st.kinoInstance.isNone then .error .notInitialized
  else
    .ok (fun st' dateStr err =>
      let fullContext : SentryCaptureContext :=
        { tags := some (optTags context ++ [("trace_uid", uid)])
          extras := context.bind (fun c => c.extras)
          user := context.bind (fun c => c.user) }
      Kino.error st' module dateStr err (some fullContext))

/-- Static `Kino.log`. Unlike every sibling static method it has NO init
guard: it evaluates `this.instance.log(...)` directly, so with `Kino.instance`
still `undefined` the property read throws a `TypeError`, not the
`Error("Logger not initialized")`. -/
def Kino.staticLog (st : GlobalState) (dateStr : String)
    (entries : List JSValue) : Except KinoError LogEffects :=
  match st.kinoInstance with
  | none => .error .typeErrorUndefined
  | some m => Kino.log st m dateStr entries

/-- Static `Kino.info`: init guard, then delegation to the default instance. -/
def Kino.staticInfo (st : GlobalState) (dateStr : String)
    (entries : List JSValue) : Except KinoError LogEffects :=
  match st.kinoInstance with
  | none => .error .notInitialized
  | some m => Kino.info st m dateStr entries

/-- Static `Kino.debug`: init guard, then delegation to the default instance. -/
def Kino.staticDebug (st : GlobalState) (dateStr : String)
    (entries : List JSValue) : Except KinoError LogEffects :=
  match st.kinoInstance with
  | none => .error .notInitialized
  | some m => Kino.debug st m dateStr entries

/-- Static `Kino.success`: init guard, then delegation to the default instance. -/
def Kino.staticSuccess (st : GlobalState) (dateStr : String)
    (entries : List JSValue) : Except KinoError LogEffects :=
  match st.kinoInstance with
  | none => .error .notInitialized
  | some m => Kino.success st m dateStr entries

/-- Static `Kino.warn`: init guard, then delegation to the default instance. -/
def Kino.staticWarn (st : GlobalState) (dateStr : String)
    (entries : List JSValue) : Except KinoError LogEffects :=
  match st.kinoInstance with
  | none => .error .notInitialized
  | some m => Kino.warn st m dateStr entries

/-- Static `Kino.error`: init guard, then delegation to the default instance. -/
def Kino.staticError (st : GlobalState) (dateStr : String) (error : JSValue)
    (context : Option SentryCaptureContext) : Except KinoError LogEffects :=
  match st.kinoInstance with
  | none => .error .notInitialized
  | some m => Kino.error st m dateStr error context

/-- Static `Kino.trace`: init guard, then `this.instance.trace(uid)` with no
context argument. -/
def Kino.staticTrace (st : GlobalState) (uid : String) :
    Except KinoError (GlobalState → String → JSValue → Except KinoError LogEffects) :=
  match st.kinoInstance with
  | none => .error .notInitialized
  | some m => Kino.trace st m uid none

/-- The `process.on("unhandledRejection", ...)` handler registered by `init`
when auto-capture is requested: it routes the reason through `Kino.error`. -/
def unhandledRejectionHandler (st : GlobalState) (dateStr : String)
    (reason : JSValue) : Except KinoError LogEffects :=
  Kino.staticError st dateStr reason none

/-- The `process.on("uncaughtException", ...)` handler registered by `init`
when auto-capture is requested: it routes the error through `Kino.error`. -/
def uncaughtExceptionHandler (st : GlobalState) (dateStr : String)
    (error : JSValue) : Except KinoError LogEffects :=
  Kino.staticError st dateStr error none

/-- Concrete initialized state with a live instance labelled `M` and no
Sentry client, used by witnesses. -/
def sampleState : GlobalState := { kinoInstance := some "M" }

/-- Concrete initialized state whose Sentry client is active, used by
witnesses. -/
def sampleSentryState : GlobalState :=
  { kinoInstance := some "M"
    sentryClient := some
      { tracesSampleRate := 1 / 10, defaultIntegrations := some false,
        integrations := [], maxBreadcrumbs := 5, sendClientReports := false } }

theorem recGet_append_last (l : List (String × String)) (k v : String) :
    recGet (l ++ [(k, v)]) k = some v := by
  induction l with
  | nil => simp [recGet]
  | cons p rest ih => simp [recGet, ih]

theorem recGet_append_other (l : List (String × String)) (k k' v : String)
    (h : k ≠ k') : recGet (l ++ [(k', v)]) k = recGet l k := by
  induction l with
  | nil => simp [recGet, Ne.symm h]
  | cons p rest ih => simp [recGet, ih]

theorem chalk_contains_mid (code : Nat) (d M tag : String) :
    ∃ a b, chalk code ("[" ++ d ++ " - " ++ M ++ " - " ++ tag ++ "]") =
      a ++ (M ++ b) := by
  refine ⟨"\x1b[" ++ toString code ++ "m[" ++ d ++ " - ",
          " - " ++ tag ++ "]\x1b[39m", ?_⟩
  apply String.ext
  simp [chalk, String.data_append]

theorem chalk_contains_tag (code : Nat) (d M tag : String) :
    ∃ a b, chalk code ("[" ++ d ++ " - " ++ M ++ " - " ++ tag ++ "]") =
      a ++ (tag ++ b) := by
  refine ⟨"\x1b[" ++ toString code ++ "m[" ++ d ++ " - " ++ M ++ " - ",
          "]\x1b[39m", ?_⟩
  apply String.ext
  simp [chalk, String.data_append]

theorem output_length (M dateStr : String) (type : LogLevel)
    (entries : List JSValue) :
    (Kino.output M dateStr type entries).length = entries.length := by
  simp [Kino.output]

theorem output_line_shape (type : LogLevel) (code : Nat)
    (hc : COLORS type = chalk code) (M dateStr : String)
    (entries : List JSValue) :
    ∀ l ∈ Kino.output M dateStr type entries,
      (∃ a b, l.pre = a ++ (M ++ b)) ∧
      (∃ a b, l.pre = a ++ (LEVELS type ++ b)) := by
  intro l hl
  simp only [Kino.output, List.mem_map] at hl
  obtain ⟨e, _, rfl⟩ := hl
  refine ⟨?_, ?_⟩
  · simpa [hc] using chalk_contains_mid code dateStr M (LEVELS type)
  · simpa [hc] using chalk_contains_tag code dateStr M (LEVELS type)

/-- C1: before `init`, every logging method throws. The instance methods and
all guarded static methods throw the `Error("Logger not initialized")`
(`notInitialized`), but the static `Kino.log` has no init guard: evaluating
`this.instance.log` with `Kino.instance` undefined throws a `TypeError`
instead, diverging from the claimed uniform UninitializedUse error. -/
theorem uninitialized_calls_behaviour :
    Kino.log initialGlobalState "M" "d" [JSValue.str "x"] = .error .notInitialized ∧
    Kino.info initialGlobalState "M" "d" [JSValue.str "x"] = .error .notInitialized ∧
    Kino.debug initialGlobalState "M" "d" [JSValue.str "x"] = .error .notInitialized ∧
    Kino.success initialGlobalState "M" "d" [JSValue.str "x"] = .error .notInitialized ∧
    Kino.warn initialGlobalState "M" "d" [JSValue.str "x"] = .error .notInitialized ∧
    Kino.error initialGlobalState "M" "d" (JSValue.str "x") none = .error .notInitialized ∧
    Kino.trace initialGlobalState "M" "uid" none = .error .notInitialized ∧
    Kino.staticInfo initialGlobalState "d" [JSValue.str "x"] = .error .notInitialized ∧
    Kino.staticDebug initialGlobalState "d" [JSValue.str "x"] = .error .notInitialized ∧
    Kino.staticSuccess initialGlobalState "d" [JSValue.str "x"] = .error .notInitialized ∧
    Kino.staticWarn initialGlobalState "d" [JSValue.str "x"] = .error .notInitialized ∧
    Kino.staticError initialGlobalState "d" (JSValue.str "x") none = .error .notInitialized ∧
    Kino.staticTrace initialGlobalState "uid" = .error .notInitialized ∧
    Kino.staticLog initialGlobalState "d" [JSValue.str "x"] = .error .typeErrorUndefined ∧
    KinoError.typeErrorUndefined ≠ KinoError.notInitialized ∧
    KinoError.notInitialized.message = "Logger not initialized" :=
  ⟨rfl, rfl, rfl, rfl, rfl, rfl, rfl, rfl, rfl, rfl, rfl, rfl, rfl, rfl,
   by decide, rfl⟩

/-- C2: `init` succeeds only from the uninitialized state, leaves the system
initialized, and any second `init` call, with any configuration, throws the
`Error("Logger already initialized")`; no operation ever clears the instance,
so the transition is one-way. -/
theorem init_at_most_once (st : GlobalState) (c1 c2 : KinoInitOptions)
    (st' : GlobalState) (h : Kino.init st c1 = .ok st') :
    st.kinoInstance = none ∧ st'.kinoInstance.isSome = true ∧
    Kino.init st' c2 = .error .alreadyInitialized ∧
    KinoError.alreadyInitialized.message = "Logger already initialized" := by
  have hnone : st.kinoInstance = none := by
    rcases hk : st.kinoInstance with _ | m
    · rfl
    · rw [Kino.init] at h
      simp [hk] at h
  rw [Kino.init, hnone] at h
  simp only [Option.isSome_none, Bool.false_eq_true, if_false, Except.ok.injEq] at h
  subst h
  refine ⟨hnone, rfl, ?_, rfl⟩
  rw [Kino.init]
  simp

/-- Witness for C2 at the fresh state and the empty configuration. -/
theorem init_at_most_once_witness :
    initialGlobalState.kinoInstance = none ∧
    (GlobalState.mk (some "GLOBAL") "en-US" none false).kinoInstance.isSome = true ∧
    Kino.init (GlobalState.mk (some "GLOBAL") "en-US" none false) {} =
      .error .alreadyInitialized ∧
    KinoError.alreadyInitialized.message = "Logger already initialized" :=
  init_at_most_once initialGlobalState {} {}
    (GlobalState.mk (some "GLOBAL") "en-US" none false) rfl

/-- C9: for every level, the text of each emitted line is the entry itself
when the entry is a string, and the depth-3 structural inspection of the
entry otherwise. -/
theorem nonstring_entries_inspected (M dateStr : String) (type : LogLevel)
    (entries : List JSValue) :
    (Kino.output M dateStr type entries).map (fun l => l.text) =
      entries.map renderEntry ∧
    (∀ s, renderEntry (JSValue.str s) = s) ∧
    (∀ v : JSValue, (∀ s, v ≠ JSValue.str s) → renderEntry v = utilInspect 3 v) := by
  refine ⟨?_, fun s => rfl, ?_⟩
  · simp [Kino.output]
  · intro v hv
    cases v with
    | str s => exact absurd rfl (hv s)
    | num n => rfl
    | bool b => rfl
    | null => rfl
    | obj fields => rfl

/-- Witness for C9: a non-string value is rendered through the inspector. -/
theorem nonstring_entries_inspected_witness :
    renderEntry (JSValue.num 3) = utilInspect 3 (JSValue.num 3) :=
  (nonstring_entries_inspected "M" "d" LogLevel.log []).2.2 (JSValue.num 3)
    (fun _ h => JSValue.noConfusion h)

/-- C5: for each level in log, info, debug, success, warn, an initialized
logger labelled `M` emits exactly one line per value, each line's header
containing `M` and the level's fixed uppercase tag, and makes no
`captureException` call. -/
theorem level_methods_one_line_per_value (st : GlobalState) (M dateStr m : String)
    (h : st.kinoInstance = some m) (entries : List JSValue) :
    (∃ lines, Kino.log st M dateStr entries = .ok ⟨lines, []⟩ ∧
      lines.length = entries.length ∧
      ∀ l ∈ lines, (∃ a b, l.pre = a ++ (M ++ b)) ∧
        (∃ a b, l.pre = a ++ ("LOG" ++ b))) ∧
    (∃ lines, Kino.info st M dateStr entries = .ok ⟨lines, []⟩ ∧
      lines.length = entries.length ∧
      ∀ l ∈ lines, (∃ a b, l.pre = a ++ (M ++ b)) ∧
        (∃ a b, l.pre = a ++ ("INFO" ++ b))) ∧
    (∃ lines, Kino.debug st M dateStr entries = .ok ⟨lines, []⟩ ∧
      lines.length = entries.length ∧
      ∀ l ∈ lines, (∃ a b, l.pre = a ++ (M ++ b)) ∧
        (∃ a b, l.pre = a ++ ("DEBUG" ++ b))) ∧
    (∃ lines, Kino.success st M dateStr entries = .ok ⟨lines, []⟩ ∧
      lines.length = entries.length ∧
      ∀ l ∈ lines, (∃ a b, l.pre = a ++ (M ++ b)) ∧
        (∃ a b, l.pre = a ++ ("SUCCESS" ++ b))) ∧
    (∃ lines, Kino.warn st M dateStr entries = .ok ⟨lines, []⟩ ∧
      lines.length = entries.length ∧
      ∀ l ∈ lines, (∃ a b, l.pre = a ++ (M ++ b)) ∧
        (∃ a b, l.pre = a ++ ("WARN" ++ b))) := by
  refine
    ⟨⟨Kino.output M dateStr .log entries, ?_, output_length M dateStr _ entries,
       output_line_shape .log 36 rfl M dateStr entries⟩,
     ⟨Kino.output M dateStr .info entries, ?_, output_length M dateStr _ entries,
       output_line_shape .info 37 rfl M dateStr entries⟩,
     ⟨Kino.output M dateStr .debug entries, ?_, output_length M dateStr _ entries,
       output_line_shape .debug 94 rfl M dateStr entries⟩,
     ⟨Kino.output M dateStr .success entries, ?_, output_length M dateStr _ entries,
       output_line_shape .success 32 rfl M dateStr entries⟩,
     ⟨Kino.output M dateStr .warn entries, ?_, output_length M dateStr _ entries,
       output_line_shape .warn 33 rfl M dateStr entries⟩⟩ <;>
  simp [Kino.log, Kino.info, Kino.debug, Kino.success, Kino.warn, h]

/-- Witness for C5 at a concrete initialized state and a two-entry call. -/
theorem level_methods_one_line_per_value_witness :
    (∃ lines, Kino.log sampleState "Mod" "d" [JSValue.str "x", JSValue.null] =
        .ok ⟨lines, []⟩ ∧
      lines.length = [JSValue.str "x", JSValue.null].length ∧
      ∀ l ∈ lines, (∃ a b, l.pre = a ++ ("Mod" ++ b)) ∧
        (∃ a b, l.pre = a ++ ("LOG" ++ b))) ∧
    (∃ lines, Kino.info sampleState "Mod" "d" [JSValue.str "x", JSValue.null] =
        .ok ⟨lines, []⟩ ∧
      lines.length = [JSValue.str "x", JSValue.null].length ∧
      ∀ l ∈ lines, (∃ a b, l.pre = a ++ ("Mod" ++ b)) ∧
        (∃ a b, l.pre = a ++ ("INFO" ++ b))) ∧
    (∃ lines, Kino.debug sampleState "Mod" "d" [JSValue.str "x", JSValue.null] =
        .ok ⟨lines, []⟩ ∧
      lines.length = [JSValue.str "x", JSValue.null].length ∧
      ∀ l ∈ lines, (∃ a b, l.pre = a ++ ("Mod" ++ b)) ∧
        (∃ a b, l.pre = a ++ ("DEBUG" ++ b))) ∧
    (∃ lines, Kino.success sampleState "Mod" "d" [JSValue.str "x", JSValue.null] =
        .ok ⟨lines, []⟩ ∧
      lines.length = [JSValue.str "x", JSValue.null].length ∧
      ∀ l ∈ lines, (∃ a b, l.pre = a ++ ("Mod" ++ b)) ∧
        (∃ a b, l.pre = a ++ ("SUCCESS" ++ b))) ∧
    (∃ lines, Kino.warn sampleState "Mod" "d" [JSValue.str "x", JSValue.null] =
        .ok ⟨lines, []⟩ ∧
      lines.length = [JSValue.str "x", JSValue.null].length ∧
      ∀ l ∈ lines, (∃ a b, l.pre = a ++ ("Mod" ++ b)) ∧
        (∃ a b, l.pre = a ++ ("WARN" ++ b))) :=
  level_methods_one_line_per_value sampleState "Mod" "d" "M" rfl
    [JSValue.str "x", JSValue.null]

/-- C3: an initialized logger's `error` emits exactly one line; it makes
exactly one `captureException` call if and only if the Sentry client is
active, and that capture carries the original value, the caller's tags with
the `module` tag set to the instance's label, and the caller's extras and
user unchanged. -/
theorem error_emits_and_captures (st : GlobalState) (M dateStr m : String)
    (h : st.kinoInstance = some m) (v : JSValue)
    (ctx : Option SentryCaptureContext) :
    ∃ eff, Kino.error st M dateStr v ctx = .ok eff ∧
      eff.lines.length = 1 ∧
      (eff.captures.length = 1 ↔ st.sentryClient.isSome = true) ∧
      (st.sentryClient.isSome = true →
        ∃ cap, eff.captures = [cap] ∧ cap.value = v ∧
          recGet cap.tags "module" = some M ∧
          (∀ k, k ≠ "module" → recGet cap.tags k = recGet (optTags ctx) k) ∧
          cap.extras = ctx.bind (fun x => x.extras) ∧
          cap.user = ctx.bind (fun x => x.user)) ∧
      (st.sentryClient.isSome = false → eff.captures = []) := by
  cases hs : st.sentryClient.isSome with
  | false =>
    have he : Kino.error st M dateStr v ctx = .ok
        { lines := Kino.output M dateStr .error [v], captures := [] } := by
      simp [Kino.error, h, hs]
    refine ⟨_, he, rfl, ?_, ?_, fun _ => rfl⟩
    · simp
    · intro hc
      simp at hc
  | true =>
    have he : Kino.error st M dateStr v ctx = .ok
        { lines := Kino.output M dateStr .error [v],
          captures := [{ value := v, tags := optTags ctx ++ [("module", M)],
                         extras := ctx.bind (fun x => x.extras),
                         user := ctx.bind (fun x => x.user) }] } := by
      simp [Kino.error, h, hs]
    refine ⟨_, he, rfl, ?_, ?_, ?_⟩
    · simp
    · intro _
      refine ⟨_, rfl, rfl, recGet_append_last _ "module" M, ?_, rfl, rfl⟩
      intro k hk
      exact recGet_append_other (optTags ctx) k "module" M hk
    · intro hc
      simp at hc

/-- Witness for C3 with an active Sentry client and no caller context. -/
theorem error_emits_and_captures_witness :
    ∃ eff, Kino.error sampleSentryState "M" "d" (JSValue.str "boom") none = .ok eff ∧
      eff.lines.length = 1 ∧
      (eff.captures.length = 1 ↔ sampleSentryState.sentryClient.isSome = true) ∧
      (sampleSentryState.sentryClient.isSome = true →
        ∃ cap, eff.captures = [cap] ∧ cap.value = JSValue.str "boom" ∧
          recGet cap.tags "module" = some "M" ∧
          (∀ k, k ≠ "module" → recGet cap.tags k = recGet (optTags none) k) ∧
          cap.extras = (none : Option SentryCaptureContext).bind (fun x => x.extras) ∧
          cap.user = (none : Option SentryCaptureContext).bind (fun x => x.user)) ∧
      (sampleSentryState.sentryClient.isSome = false → eff.captures = []) :=
  error_emits_and_captures sampleSentryState "M" "d" "M" rfl
    (JSValue.str "boom") none

/-- C4: an initialized logger's `trace(uid, context?)` returns a closure and
performs no logging or capture at construction; invoking the closure on a
value is exactly a call to `error` with the caller's context plus a
`trace_uid` tag set to `uid`; with no caller context this is
`error(v, \x7btags: \x7btrace_uid: uid\x7d\x7d)`. -/
theorem trace_returns_error_closure (st : GlobalState) (M uid m : String)
    (h : st.kinoInstance = some m) (ctx : Option SentryCaptureContext) :
    ∃ f, Kino.trace st M uid ctx = .ok f ∧
      (∀ st' dateStr v, f st' dateStr v = Kino.error st' M dateStr v
        (some { tags := some (optTags ctx ++ [("trace_uid", uid)]),
                extras := ctx.bind (fun x => x.extras),
                user := ctx.bind (fun x => x.user) })) ∧
      (ctx = none → ∀ st' dateStr v, f st' dateStr v = Kino.error st' M dateStr v
        (some { tags := some [("trace_uid", uid)],
                extras := none, user := none })) := by
  refine ⟨fun st' dateStr err =>
      Kino.error st' M dateStr err
        (some { tags := some (optTags ctx ++ [("trace_uid", uid)]),
                extras := ctx.bind (fun x => x.extras),
                user := ctx.bind (fun x => x.user) }), ?_, fun _ _ _ => rfl, ?_⟩
  · simp [Kino.trace, h]
  · rintro rfl st' dateStr v
    rfl

/-- Witness for C4 at a concrete initialized state with no caller context. -/
theorem trace_returns_error_closure_witness :
    ∃ f, Kino.trace sampleState "M" "uid-1" none = .ok f ∧
      (∀ st' dateStr v, f st' dateStr v = Kino.error st' "M" dateStr v
        (some { tags := some (optTags none ++ [("trace_uid", "uid-1")]),
                extras := (none : Option SentryCaptureContext).bind (fun x => x.extras),
                user := (none : Option SentryCaptureContext).bind (fun x => x.user) })) ∧
      (none = (none : Option SentryCaptureContext) →
        ∀ st' dateStr v, f st' dateStr v = Kino.error st' "M" dateStr v
          (some { tags := some [("trace_uid", "uid-1")],
                  extras := none, user := none })) :=
  trace_returns_error_closure sampleState "M" "uid-1" "M" rfl none

/-- C10: in the context forwarded to `captureException`, the facade's tags
win over identically-named caller tags: `error` overwrites a caller-supplied
`module` tag with the instance label, the closure returned by `trace`
overwrites a caller-supplied `trace_uid` tag with its uid, and every other
caller tag is preserved. -/
theorem facade_tags_take_precedence (st : GlobalState) (M dateStr uid m : String)
    (h : st.kinoInstance = some m) (hs : st.sentryClient.isSome = true)
    (v : JSValue) (c : SentryCaptureContext) :
    (∃ eff cap, Kino.error st M dateStr v (some c) = .ok eff ∧
      eff.captures = [cap] ∧
      recGet cap.tags "module" = some M ∧
      (∀ k, k ≠ "module" → recGet cap.tags k = recGet (c.tags.getD []) k)) ∧
    (∃ f, Kino.trace st M uid (some c) = .ok f ∧
      ∃ eff cap, f st dateStr v = .ok eff ∧ eff.captures = [cap] ∧
        recGet cap.tags "trace_uid" = some uid ∧
        recGet cap.tags "module" = some M ∧
        (∀ k, k ≠ "module" → k ≠ "trace_uid" →
          recGet cap.tags k = recGet (c.tags.getD []) k)) := by
  constructor
  · have he : Kino.error st M dateStr v (some c) = .ok
        { lines := Kino.output M dateStr .error [v],
          captures := [{ value := v, tags := optTags (some c) ++ [("module", M)],
                         extras := (some c).bind (fun x => x.extras),
                         user := (some c).bind (fun x => x.user) }] } := by
      simp [Kino.error, h, hs]
    refine ⟨_, _, he, rfl, recGet_append_last _ "module" M, ?_⟩
    intro k hk
    exact recGet_append_other (optTags (some c)) k "module" M hk
  · refine ⟨fun st' dateStr' err =>
        Kino.error st' M dateStr' err
          (some { tags := some (optTags (some c) ++ [("trace_uid", uid)]),
                  extras := (some c).bind (fun x => x.extras),
                  user := (some c).bind (fun x => x.user) }), ?_, ?_⟩
    · simp [Kino.trace, h]
    · have he2 : Kino.error st M dateStr v
          (some ({ tags := some (optTags (some c) ++ [("trace_uid", uid)]),
                   extras := (some c).bind (fun x => x.extras),
                   user := (some c).bind (fun x => x.user) } : SentryCaptureContext)) = .ok
          { lines := Kino.output M dateStr .error [v],
            captures := [{ value := v,
                           tags := (optTags (some c) ++ [("trace_uid", uid)]) ++ [("module", M)],
                           extras := (some c).bind (fun x => x.extras),
                           user := (some c).bind (fun x => x.user) }] } := by
        simp [Kino.error, h, hs, optTags]
      refine ⟨_, _, he2, rfl, ?_, ?_, ?_⟩
      · rw [recGet_append_other _ "trace_uid" "module" M (by decide)]
        exact recGet_append_last _ "trace_uid" uid
      · exact recGet_append_last _ "module" M
      · intro k hk1 hk2
        rw [recGet_append_other _ k "module" M hk1,
            recGet_append_other _ k "trace_uid" uid hk2]
        rfl

/-- Witness for C10 with caller tags that clash with `module` and
`trace_uid` and one that does not. -/
theorem facade_tags_take_precedence_witness :
    (∃ eff cap, Kino.error sampleSentryState "M" "d" (JSValue.null)
        (some { tags := some [("module", "X"), ("trace_uid", "Y"), ("k", "Z")] }) =
          .ok eff ∧
      eff.captures = [cap] ∧
      recGet cap.tags "module" = some "M" ∧
      (∀ k, k ≠ "module" → recGet cap.tags k =
        recGet ((some [("module", "X"), ("trace_uid", "Y"), ("k", "Z")] :
          Option (List (String × String))).getD []) k)) ∧
    (∃ f, Kino.trace sampleSentryState "M" "uid-1"
        (some { tags := some [("module", "X"), ("trace_uid", "Y"), ("k", "Z")] }) =
          .ok f ∧
      ∃ eff cap, f sampleSentryState "d" JSValue.null = .ok eff ∧
        eff.captures = [cap] ∧
        recGet cap.tags "trace_uid" = some "uid-1" ∧
        recGet cap.tags "module" = some "M" ∧
        (∀ k, k ≠ "module" → k ≠ "trace_uid" →
          recGet cap.tags k =
            recGet ((some [("module", "X"), ("trace_uid", "Y"), ("k", "Z")] :
              Option (List (String × String))).getD []) k)) :=
  facade_tags_take_precedence sampleSentryState "M" "d" "uid-1" "M" rfl rfl
    JSValue.null { tags := some [("module", "X"), ("trace_uid", "Y"), ("k", "Z")] }

theorem init_ok_of_uninitialized (st : GlobalState) (config : KinoInitOptions)
    (h0 : st.kinoInstance = none) :
    Kino.init st config = .ok
      { kinoInstance := some (config.defaultIntanceTitle.getD "GLOBAL")
        locale :=
          match config.locale with
          | some l => if l == "" then st.locale else l
          | none => st.locale
        sentryClient :=
          match config.sentry with
          | some cs => some (mkSentryInitArgs cs (assembleIntegrations config))
          | none => st.sentryClient
        handlersRegistered :=
          if config.autoCaptureUnhandledRejections then true
          else st.handlersRegistered } := by
  simp [Kino.init, h0]

theorem knex_mem_assembleIntegrations (config : KinoInitOptions) :
    (Integration.knex ∈ assembleIntegrations config) ↔
      "knex" ∈ config.packages.getD [] := by
  by_cases hA : config.autoCaptureUnhandledRejections = true <;>
  by_cases hN : config.ANR = true <;>
  by_cases hK : "knex" ∈ config.packages.getD [] <;>
  by_cases hM : "mysql2" ∈ config.packages.getD [] <;>
  simp [assembleIntegrations, hA, hN, hK, hM, Bool.not_eq_true]

theorem mysql2_mem_assembleIntegrations (config : KinoInitOptions) :
    (Integration.mysql2 ∈ assembleIntegrations config) ↔
      "mysql2" ∈ config.packages.getD [] := by
  by_cases hA : config.autoCaptureUnhandledRejections = true <;>
  by_cases hN : config.ANR = true <;>
  by_cases hK : "knex" ∈ config.packages.getD [] <;>
  by_cases hM : "mysql2" ∈ config.packages.getD [] <;>
  simp [assembleIntegrations, hA, hN, hK, hM, Bool.not_eq_true]

theorem sdk_integrations_mem (config : KinoInitOptions) :
    ((Integration.onUncaughtException ∈ assembleIntegrations config) ↔
      config.autoCaptureUnhandledRejections = false) ∧
    ((Integration.onUnhandledRejection ∈ assembleIntegrations config) ↔
      config.autoCaptureUnhandledRejections = false) := by
  by_cases hA : config.autoCaptureUnhandledRejections = true <;>
  by_cases hN : config.ANR = true <;>
  by_cases hK : "knex" ∈ config.packages.getD [] <;>
  by_cases hM : "mysql2" ∈ config.packages.getD [] <;>
  simp [assembleIntegrations, hA, hN, hK, hM, Bool.not_eq_true]

/-- C6 counterexample: calling `init` with `packages: ["knex"]` but no
`sentry` configuration never reaches the integration-assembly branch, so
`Sentry.init` is not called at all and no assembled integration list exists
(the Sentry client stays inactive). -/
theorem packages_without_sentry_no_client :
    Kino.init initialGlobalState { packages := some ["knex"] } =
      .ok { kinoInstance := some "GLOBAL", locale := "en-US",
            sentryClient := none, handlersRegistered := false } := rfl

/-- C6 amended: when an error-reporting configuration is supplied (and it
does not itself override the `integrations` key), the list `init` passes to
`Sentry.init` contains the knex integration exactly when `"knex"` is in
`packages`, contains the mysql2 integration exactly when `"mysql2"` is, and
contains neither when `packages` is omitted. -/
theorem packages_select_db_integrations (st : GlobalState)
    (config : KinoInitOptions) (cs : SentryNodeOptions)
    (h0 : st.kinoInstance = none) (h1 : config.sentry = some cs)
    (h2 : cs.integrations = none) :
    ∃ st' args, Kino.init st config = .ok st' ∧ st'.sentryClient = some args ∧
      args.integrations = assembleIntegrations config ∧
      ((Integration.knex ∈ args.integrations) ↔
        "knex" ∈ config.packages.getD []) ∧
      ((Integration.mysql2 ∈ args.integrations) ↔
        "mysql2" ∈ config.packages.getD []) ∧
      (config.packages = none →
        Integration.knex ∉ args.integrations ∧
        Integration.mysql2 ∉ args.integrations) := by
  have hai : (mkSentryInitArgs cs (assembleIntegrations config)).integrations
      = assembleIntegrations config := by
    simp [mkSentryInitArgs, spreadSentryOptions, preSpreadSentryArgs, h2]
  refine ⟨_, mkSentryInitArgs cs (assembleIntegrations config),
    init_ok_of_uninitialized st config h0, by simp [h1], hai, ?_, ?_, ?_⟩
  · rw [hai]
    exact knex_mem_assembleIntegrations config
  · rw [hai]
    exact mysql2_mem_assembleIntegrations config
  · intro hp
    rw [hai]
    constructor
    · simp [knex_mem_assembleIntegrations config, hp]
    · simp [mysql2_mem_assembleIntegrations config, hp]

/-- Witness for the amended C6 with both driver packages named. -/
theorem packages_select_db_integrations_witness :
    ∃ st' args, Kino.init initialGlobalState
        { sentry := some {}, packages := some ["knex", "mysql2"] } = .ok st' ∧
      st'.sentryClient = some args ∧
      args.integrations = assembleIntegrations
        { sentry := some {}, packages := some ["knex", "mysql2"] } ∧
      ((Integration.knex ∈ args.integrations) ↔
        "knex" ∈ (KinoInitOptions.mk (some {}) (some ["knex", "mysql2"])
          false none none false).packages.getD []) ∧
      ((Integration.mysql2 ∈ args.integrations) ↔
        "mysql2" ∈ (KinoInitOptions.mk (some {}) (some ["knex", "mysql2"])
          false none none false).packages.getD []) ∧
      ((KinoInitOptions.mk (some {}) (some ["knex", "mysql2"])
          false none none false).packages = none →
        Integration.knex ∉ args.integrations ∧
        Integration.mysql2 ∉ args.integrations) :=
  packages_select_db_integrations initialGlobalState
    { sentry := some {}, packages := some ["knex", "mysql2"] } {} rfl rfl rfl

/-- C7 counterexample: calling `init` with the auto-capture flag omitted and
no `sentry` configuration registers no handlers but also assembles no
integration list at all — `Sentry.init` is never called, so the SDK's
uncaught-exception/unhandled-rejection integrations are not included
anywhere, contrary to the claim's unconditional reading. -/
theorem omitted_flag_without_sentry_no_integrations :
    Kino.init initialGlobalState {} =
      .ok { kinoInstance := some "GLOBAL", locale := "en-US",
            sentryClient := none, handlersRegistered := false } := rfl

/-- C7 amended: `init` with `autoCaptureUnhandledRejections: true` registers
the process-level handlers (which route events through the static `error`
method) and the assembled list omits the SDK's two process-event
integrations; with the flag omitted no handlers are registered and, whenever
the list is assembled (an error-reporting configuration is supplied), it
contains both SDK integrations. -/
theorem auto_capture_mutually_exclusive (st : GlobalState)
    (config : KinoInitOptions) (h0 : st.kinoInstance = none) :
    (config.autoCaptureUnhandledRejections = true →
      ∃ st', Kino.init st config = .ok st' ∧ st'.handlersRegistered = true ∧
        Integration.onUncaughtException ∉ assembleIntegrations config ∧
        Integration.onUnhandledRejection ∉ assembleIntegrations config) ∧
    (config.autoCaptureUnhandledRejections = false →
      ∃ st', Kino.init st config = .ok st' ∧
        st'.handlersRegistered = st.handlersRegistered ∧
        Integration.onUncaughtException ∈ assembleIntegrations config ∧
        Integration.onUnhandledRejection ∈ assembleIntegrations config) ∧
    (∀ st2 d r, unhandledRejectionHandler st2 d r = Kino.staticError st2 d r none) ∧
    (∀ st2 d e, uncaughtExceptionHandler st2 d e = Kino.staticError st2 d e none) := by
  refine ⟨?_, ?_, fun _ _ _ => rfl, fun _ _ _ => rfl⟩
  · intro hA
    refine ⟨_, init_ok_of_uninitialized st config h0, ?_, ?_, ?_⟩
    · simp [hA]
    · simp [(sdk_integrations_mem config).1, hA]
    · simp [(sdk_integrations_mem config).2, hA]
  · intro hA
    refine ⟨_, init_ok_of_uninitialized st config h0, ?_, ?_, ?_⟩
    · simp [hA]
    · simp [(sdk_integrations_mem config).1, hA]
    · simp [(sdk_integrations_mem config).2, hA]

/-- Witness for the amended C7 with the auto-capture flag set. -/
theorem auto_capture_mutually_exclusive_witness :
    ((KinoInitOptions.mk none none false none none
        true).autoCaptureUnhandledRejections = true →
      ∃ st', Kino.init initialGlobalState
          { autoCaptureUnhandledRejections := true } = .ok st' ∧
        st'.handlersRegistered = true ∧
        Integration.onUncaughtException ∉ assembleIntegrations
          { autoCaptureUnhandledRejections := true } ∧
        Integration.onUnhandledRejection ∉ assembleIntegrations
          { autoCaptureUnhandledRejections := true }) ∧
    ((KinoInitOptions.mk none none false none none
        true).autoCaptureUnhandledRejections = false →
      ∃ st', Kino.init initialGlobalState
          { autoCaptureUnhandledRejections := true } = .ok st' ∧
        st'.handlersRegistered = initialGlobalState.handlersRegistered ∧
        Integration.onUncaughtException ∈ assembleIntegrations
          { autoCaptureUnhandledRejections := true } ∧
        Integration.onUnhandledRejection ∈ assembleIntegrations
          { autoCaptureUnhandledRejections := true }) ∧
    (∀ st2 d r, unhandledRejectionHandler st2 d r = Kino.staticError st2 d r none) ∧
    (∀ st2 d e, uncaughtExceptionHandler st2 d e = Kino.staticError st2 d e none) :=
  auto_capture_mutually_exclusive initialGlobalState
    { autoCaptureUnhandledRejections := true } rfl

/-- C8: when `init` is given an error-reporting configuration, the options
passed to `Sentry.init` default the trace sample rate to `0.1`, the
breadcrumb cap to `5`, and client reporting to off, the `defaultIntegrations`
key to `false`, and the assembled integrations are used — while every option
the caller supplied in that configuration overrides the corresponding
default via the final spread. -/
theorem sentry_defaults_and_overrides (st : GlobalState)
    (config : KinoInitOptions) (cs : SentryNodeOptions)
    (h0 : st.kinoInstance = none) (h1 : config.sentry = some cs) :
    ∃ st' args, Kino.init st config = .ok st' ∧ st'.sentryClient = some args ∧
      (cs.tracesSampleRate = none → args.tracesSampleRate = 1 / 10) ∧
      (∀ r, cs.tracesSampleRate = some r → args.tracesSampleRate = r) ∧
      (cs.maxBreadcrumbs = none → args.maxBreadcrumbs = 5) ∧
      (∀ n, cs.maxBreadcrumbs = some n → args.maxBreadcrumbs = n) ∧
      (cs.sendClientReports = none → args.sendClientReports = false) ∧
      (∀ b, cs.sendClientReports = some b → args.sendClientReports = b) ∧
      (cs.integrations = none → args.integrations = assembleIntegrations config) ∧
      (∀ l, cs.integrations = some l → args.integrations = l) ∧
      (cs.defaultIntegrations = none → args.defaultIntegrations = some false) ∧
      (∀ b, cs.defaultIntegrations = some b → args.defaultIntegrations = some b) := by
  refine ⟨_, mkSentryInitArgs cs (assembleIntegrations config),
    init_ok_of_uninitialized st config h0, by simp [h1],
    ?_, ?_, ?_, ?_, ?_, ?_, ?_, ?_, ?_, ?_⟩ <;>
  intros <;>
  simp_all [mkSentryInitArgs, spreadSentryOptions, preSpreadSentryArgs]

/-- Witness for C8 with an empty caller configuration (all defaults). -/
theorem sentry_defaults_and_overrides_witness :
    ∃ st' args, Kino.init initialGlobalState { sentry := some {} } = .ok st' ∧
      st'.sentryClient = some args ∧
      ((SentryNodeOptions.mk none none none none none).tracesSampleRate = none →
        args.tracesSampleRate = 1 / 10) ∧
      (∀ r, (SentryNodeOptions.mk none none none none none).tracesSampleRate = some r →
        args.tracesSampleRate = r) ∧
      ((SentryNodeOptions.mk none none none none none).maxBreadcrumbs = none →
        args.maxBreadcrumbs = 5) ∧
      (∀ n, (SentryNodeOptions.mk none none none none none).maxBreadcrumbs = some n →
        args.maxBreadcrumbs = n) ∧
      ((SentryNodeOptions.mk none none none none none).sendClientReports = none →
        args.sendClientReports = false) ∧
      (∀ b, (SentryNodeOptions.mk none none none none none).sendClientReports = some b →
        args.sendClientReports = b) ∧
      ((SentryNodeOptions.mk none none none none none).integrations = none →
        args.integrations = assembleIntegrations { sentry := some {} }) ∧
      (∀ l, (SentryNodeOptions.mk none none none none none).integrations = some l →
        args.integrations = l) ∧
      ((SentryNodeOptions.mk none none none none none).defaultIntegrations = none →
        args.defaultIntegrations = some false) ∧
      (∀ b, (SentryNodeOptions.mk none none none none none).defaultIntegrations = some b →
        args.defaultIntegrations = some b) :=
  sentry_defaults_and_overrides initialGlobalState { sentry := some {} } {} rfl rfl
